import Mathlib

/-!
# Telemetry: the Prometheus adapter

A shallow embedding of `prometheus/prometheus.go`, `telemetry.go` and `errors.go`.

* Go `error` values are the type `GoError`; a nil error is `none`.
* The service registry, the client constructor `api.NewClient`, the remote query
  engine behind `v1api.Query` and the implementation-dependent part of Go's numeric
  conversions are the fields of `World`: they are external to the repository.
* `New` and the thirteen accessors are translated statement by statement.  Every
  result carries the calls made to the outside (`dialed`, `issued`), in order.
* A Go run-time panic (failed type assertion, index out of range) is `Outcome.panicked`.
* Go maps are lists of entries with distinct keys; a nil map or slice is `none`.
* Logging has no effect on what is returned and is left out; the registry is taken to
  list no nil `*registry.Service`.
-/

set_option autoImplicit false

/-- Go error values: the registry's not-found sentinel, the two sentinels of `errors.go`,
and any other error value handed over by the registry, the client library or the
query engine. -/
inductive GoError where
  | ErrNotFound
  | ErrNotFoundService
  | ErrConnectionFailed
  | other (msg : String)
  deriving DecidableEq, Repr

/-- A float64 (`model.SampleValue`): a finite value `m * 2 ^ e`, an infinity or NaN. -/
inductive GoFloat where
  | finite (m : Int) (e : Int)
  | inf (negative : Bool)
  | nan
  deriving DecidableEq, Repr

namespace GoFloat

/-- The integer part of a finite value, fraction discarded (truncation towards zero). -/
def trunc : GoFloat → Option Int
  | finite m e => some (if 0 ≤ e then m * 2 ^ e.toNat else Int.tdiv m (2 ^ (-e).toNat))
  | inf _ => none
  | nan => none

/-- Go conversion of a float64 to a signed integer of `bits` bits: truncation towards zero
when the result is representable, the implementation-dependent value `impl v` otherwise. -/
def toInt (bits : Nat) (impl : GoFloat → Int) (v : GoFloat) : Int :=
  match v.trunc with
  | some n => if -(2 ^ (bits - 1)) ≤ n ∧ n < 2 ^ (bits - 1) then n else impl v
  | none => impl v

end GoFloat

namespace telemetry

/-- The struct `NodeMeta` of telemetry.go. -/
structure NodeMeta where
  ID : String
  HostName : String
  IPAddress : String
  deriving DecidableEq, Repr

/-- The struct `ServiceMeta` of telemetry.go. -/
structure ServiceMeta where
  ID : String
  Name : String
  deriving DecidableEq, Repr

end telemetry

namespace registry

/-- The type `registry.Node`: the field read by the adapter is `Address`. -/
structure Node where
  Id : String
  Address : String
  deriving DecidableEq, Repr

/-- The type `registry.Service`: the field read by the adapter is `Nodes`. -/
structure Service where
  Name : String
  Nodes : List Node
  deriving DecidableEq, Repr

end registry

namespace api

/-- The type `api.Config`, the argument of `api.NewClient`. -/
structure Config where
  Address : String
  deriving DecidableEq, Repr

end api

namespace model

/-- The type `model.Sample`: a label set (`Metric`) and a value. -/
structure Sample where
  Metric : List (String × String)
  Value : GoFloat
  deriving DecidableEq, Repr

/-- The interface `model.Value`, by dynamic type. -/
inductive Value where
  | Vector (samples : List Sample)
  | Scalar (value : GoFloat)
  | Matrix
  | Str (value : String)
  deriving DecidableEq, Repr

end model

namespace prometheus

/-- What `v1api.Query` hands back: result, warnings, error. -/
structure QueryResponse where
  result : Option model.Value
  warnings : List String
  err : Option GoError
  deriving DecidableEq, Repr

/-- The collaborators outside the repository, for a client handle type `C`. -/
structure World (C : Type) where
  /-- Registry lookup `registry.GetService`: the listing and the error. -/
  GetService : String → List registry.Service × Option GoError
  /-- Client constructor `api.NewClient`. -/
  NewClient : api.Config → Except GoError C
  /-- Remote evaluation `v1api.Query` through a client handle. -/
  Query : C → String → QueryResponse
  /-- Result of `int32(v)` when `v` is not representable. -/
  int32Impl : GoFloat → Int
  /-- Result of `int64(v)` when `v` is not representable. -/
  int64Impl : GoFloat → Int
  /-- Rounding of `float32(v)`. -/
  float32 : GoFloat → GoFloat

/-- The struct `Prometheus`. -/
structure Prometheus (C : Type) where
  client : C
  deriving DecidableEq, Repr

/-- The function `strings.HasPrefix`. -/
def HasPrefix (s pre : String) : Bool :=
  pre.data.isPrefixOf s.data

/-- Lines 35-38 of `New`: the local `address` starts as the empty string and is assigned
only when the registered address lacks the scheme. -/
def address (nodeAddress : String) : String :=
  if !HasPrefix nodeAddress "http://" then "http://" ++ nodeAddress else ""

/-- The inner loop of `New` over `svc.Nodes`: the client of the first successful
`api.NewClient`, and every configuration passed to it. -/
def connectNodes {C : Type} (w : World C) : List registry.Node → Option C × List api.Config
  | [] => (none, [])
  | node :: rest =>
    match w.NewClient ⟨address node.Address⟩ with
    | .ok client => (some client, [⟨address node.Address⟩])
    | .error _ =>
      let r := connectNodes w rest
      (r.1, ⟨address node.Address⟩ :: r.2)

/-- The outer loop of `New` over `services`. -/
def connectServices {C : Type} (w : World C) :
    List registry.Service → Option C × List api.Config
  | [] => (none, [])
  | svc :: rest =>
    match connectNodes w svc.Nodes with
    | (some client, dialed) => (some client, dialed)
    | (none, dialed) =>
      let r := connectServices w rest
      (r.1, dialed ++ r.2)

/-- What `New` returns (adapter or nil, error or nil) and the connection attempts made. -/
structure NewResult (C : Type) where
  adapter : Option (Prometheus C)
  err : Option GoError
  dialed : List api.Config
  deriving DecidableEq, Repr

/-- The function `New`. -/
def New {C : Type} (w : World C) (name : String) : NewResult C :=
  let services := (w.GetService name).1
  let err := (w.GetService name).2
  if err ≠ none ∧ err ≠ some GoError.ErrNotFound then
    ⟨none, err, []⟩
  else if err = some GoError.ErrNotFound ∨ services.length = 0 then
    ⟨none, some GoError.ErrNotFoundService, []⟩
  else
    match connectServices w services with
    | (some client, dialed) => ⟨some ⟨client⟩, none, dialed⟩
    | (none, dialed) => ⟨none, some GoError.ErrConnectionFailed, dialed⟩

/-- How a call of an accessor ends: it returns a value and an error (nil is `none`),
or it panics. -/
inductive Outcome (α : Type) where
  | ret (value : α) (err : Option GoError)
  | panicked
  deriving DecidableEq, Repr

/-- The end of a call and the query expressions it sent to the remote engine, in order. -/
structure Run (α : Type) where
  outcome : Outcome α
  issued : List String
  deriving DecidableEq, Repr

/-- What `promAPIQuery` returns (result or nil, error or nil) and the expressions sent. -/
structure QueryCall where
  result : Option model.Value
  err : Option GoError
  issued : List String
  deriving DecidableEq, Repr

/-- The method `promAPIQuery`: one call of `v1api.Query`; warnings are only logged. -/
def promAPIQuery {C : Type} (w : World C) (p : Prometheus C) (query : String) : QueryCall :=
  let r := w.Query p.client query
  match r.err with
  | some err => ⟨none, some err, [query]⟩
  | none => ⟨r.result, none, [query]⟩

/-- The conversion `int32(value)`. -/
def int32 {C : Type} (w : World C) (v : GoFloat) : Int :=
  GoFloat.toInt 32 w.int32Impl v

/-- The conversion `int64(value)`. -/
def int64 {C : Type} (w : World C) (v : GoFloat) : Int :=
  GoFloat.toInt 64 w.int64Impl v

/-- Reading `metric[name]` and printing it with `%v`: the label value, the empty string
when the label is absent. -/
def label (metric : List (String × String)) (name : String) : String :=
  (metric.lookup name).getD ""

/-- The assignment `nodes[key] = value` on a Go map, kept as a list of entries with
distinct keys. -/
def mapSet {β : Type} (nodes : List (String × β)) (key : String) (value : β) :
    List (String × β) :=
  match nodes with
  | [] => [(key, value)]
  | (k, b) :: rest => if k = key then (key, value) :: rest else (k, b) :: mapSet rest key value

/-- The function `strings.Join`. -/
def Join (elems : List String) (sep : String) : String :=
  match elems with
  | [] => ""
  | [a] => a
  | a :: rest => a ++ sep ++ Join rest sep

/-- The method `NodeMeta`; a nil map is `none`. -/
def NodeMeta {C : Type} (w : World C) (p : Prometheus C) (idList : List String) :
    Run (Option (List (String × telemetry.NodeMeta))) :=
  let query :=
    if idList.length > 0 then
      "node_meta\x7bcontainer_label_com_docker_swarm_node_id=~\"" ++ Join idList "|" ++ "\"\x7d"
    else
      "node_meta\x7b\x7d"
  let r := promAPIQuery w p query
  match r.err with
  | some err => ⟨.ret none (some err), r.issued⟩
  | none =>
    match r.result with
    | some (.Vector vectors) =>
      let nodes := vectors.foldl
        (fun nodes v => mapSet nodes (label v.Metric "instance")
          ⟨label v.Metric "node_id", label v.Metric "node_name", label v.Metric "node_ip"⟩)
        []
      ⟨.ret (some nodes) none, r.issued⟩
    | _ => ⟨.panicked, r.issued⟩

/-- The method `NodeCPUCoreCnt`. -/
def NodeCPUCoreCnt {C : Type} (w : World C) (p : Prometheus C) (key : String) :
    Run Int :=
  let query := "count(count(node_cpu_seconds_total\x7binstance=\"" ++ key ++ "\"\x7d) by (cpu))"
  let r := promAPIQuery w p query
  match r.err with
  | some err => ⟨.ret 0 (some err), r.issued⟩
  | none =>
    match r.result with
    | some (.Vector (v :: _)) => ⟨.ret (int32 w v.Value) none, r.issued⟩
    | _ => ⟨.panicked, r.issued⟩

/-- The method `NodeCPUUsedRate`. -/
def NodeCPUUsedRate {C : Type} (w : World C) (p : Prometheus C) (key : String) :
    Run GoFloat :=
  let query := "100 - (avg(irate(node_cpu_seconds_total\x7binstance=~\"" ++ key ++
      "\",mode=\"idle\"\x7d[5m]))" ++ " * 100)"
  let r := promAPIQuery w p query
  match r.err with
  | some err => ⟨.ret (GoFloat.finite 0 0) (some err), r.issued⟩
  | none =>
    match r.result with
    | some (.Vector (v :: _)) => ⟨.ret (w.float32 v.Value) none, r.issued⟩
    | _ => ⟨.panicked, r.issued⟩

/-- The method `NodeMemTotalBytes`. -/
def NodeMemTotalBytes {C : Type} (w : World C) (p : Prometheus C) (key : String) :
    Run Int :=
  let query := "sum(node_memory_MemTotal_bytes\x7binstance=\"" ++ key ++ "\"\x7d)"
  let r := promAPIQuery w p query
  match r.err with
  | some err => ⟨.ret 0 (some err), r.issued⟩
  | none =>
    match r.result with
    | some (.Vector (v :: _)) => ⟨.ret (int64 w v.Value) none, r.issued⟩
    | _ => ⟨.panicked, r.issued⟩

/-- The method `NodeMemUsedBytes`. -/
def NodeMemUsedBytes {C : Type} (w : World C) (p : Prometheus C) (key : String) :
    Run Int :=
  let query := "sum(node_memory_MemTotal_bytes\x7binstance=\"" ++ key ++ "\"\x7d) -" ++
      "sum(node_memory_MemAvailable_bytes\x7binstance=\"" ++ key ++ "\"\x7d)"
  let r := promAPIQuery w p query
  match r.err with
  | some err => ⟨.ret 0 (some err), r.issued⟩
  | none =>
    match r.result with
    | some (.Vector (v :: _)) => ⟨.ret (int64 w v.Value) none, r.issued⟩
    | _ => ⟨.panicked, r.issued⟩

/-- The method `NodeNetworkReceiveBytes`. -/
def NodeNetworkReceiveBytes {C : Type} (w : World C) (p : Prometheus C) (key : String) :
    Run Int :=
  let query := "sum(rate(node_network_receive_bytes_total\x7binstance=\"" ++ key ++ "\"\x7d[1m]))"
  let r := promAPIQuery w p query
  match r.err with
  | some err => ⟨.ret 0 (some err), r.issued⟩
  | none =>
    match r.result with
    | some (.Vector (v :: _)) => ⟨.ret (int64 w v.Value) none, r.issued⟩
    | _ => ⟨.panicked, r.issued⟩

/-- The method `NodeNetworkTransmitBytes`. -/
def NodeNetworkTransmitBytes {C : Type} (w : World C) (p : Prometheus C) (key : String) :
    Run Int :=
  let query := "sum(rate(node_network_transmit_bytes_total\x7binstance=\"" ++ key ++ "\"\x7d[1m]))"
  let r := promAPIQuery w p query
  match r.err with
  | some err => ⟨.ret 0 (some err), r.issued⟩
  | none =>
    match r.result with
    | some (.Vector (v :: _)) => ⟨.ret (int64 w v.Value) none, r.issued⟩
    | _ => ⟨.panicked, r.issued⟩

/-- The method `NodeFilesystemSizeBytes`. -/
def NodeFilesystemSizeBytes {C : Type} (w : World C) (p : Prometheus C) (key : String) :
    Run Int :=
  let query := "node_filesystem_size_bytes\x7binstance=\"" ++ key ++ "\"\x7d"
  let r := promAPIQuery w p query
  match r.err with
  | some err => ⟨.ret 0 (some err), r.issued⟩
  | none =>
    match r.result with
    | some (.Vector (v :: _)) => ⟨.ret (int64 w v.Value) none, r.issued⟩
    | _ => ⟨.panicked, r.issued⟩

/-- The method `NodeFilesystemUsedBytes`. -/
def NodeFilesystemUsedBytes {C : Type} (w : World C) (p : Prometheus C) (key : String) :
    Run Int :=
  let query := "node_filesystem_size_bytes\x7binstance=\"" ++ key ++ "\"\x7d -" ++
      "node_filesystem_avail_bytes\x7binstance=\"" ++ key ++ "\"\x7d"
  let r := promAPIQuery w p query
  match r.err with
  | some err => ⟨.ret 0 (some err), r.issued⟩
  | none =>
    match r.result with
    | some (.Vector (v :: _)) => ⟨.ret (int64 w v.Value) none, r.issued⟩
    | _ => ⟨.panicked, r.issued⟩

/-- The method `ServiceMeta`; a nil slice is `none`. -/
def ServiceMeta {C : Type} (w : World C) (p : Prometheus C) (name : String) :
    Run (Option (List telemetry.ServiceMeta)) :=
  let query := "container_start_time_seconds\x7bimage!=\"\", " ++
    "container_env_cdm_service_name=\"" ++ name ++ "\"\x7d"
  let r := promAPIQuery w p query
  match r.err with
  | some err => ⟨.ret none (some err), r.issued⟩
  | none =>
    match r.result with
    | some (.Vector vectors) =>
      let services := vectors.foldl
        (fun services v => services ++
          [⟨label v.Metric "container_label_com_docker_swarm_node_id",
            label v.Metric "container_env_cdm_service_name"⟩])
        []
      ⟨.ret (some services) none, r.issued⟩
    | _ => ⟨.panicked, r.issued⟩

/-- The method `ServiceMemUsedBytes`. -/
def ServiceMemUsedBytes {C : Type} (w : World C) (p : Prometheus C) (params : List String) :
    Run Int :=
  let query : Option String :=
    if params.length > 1 then
      match params[0]?, params[1]? with
      | some p0, some p1 =>
        some ("sum(container_memory_usage_bytes\x7bimage!=\"\", " ++
          "container_env_cdm_service_name=\"" ++ p0 ++
          "\", container_label_com_docker_swarm_node_id=\"" ++ p1 ++ "\"\x7d)")
      | _, _ => none
    else
      match params[0]? with
      | some p0 =>
        some ("sum(container_memory_usage_bytes\x7bimage!=\"\", " ++
          "container_env_cdm_service_name=\"" ++ p0 ++ "\"\x7d)")
      | none => none
  match query with
  | none => ⟨.panicked, []⟩
  | some query =>
    let r := promAPIQuery w p query
    match r.err with
    | some err => ⟨.ret 0 (some err), r.issued⟩
    | none =>
      match r.result with
      | some (.Vector (v :: _)) => ⟨.ret (int64 w v.Value) none, r.issued⟩
      | _ => ⟨.panicked, r.issued⟩

/-- The method `ServiceNetworkReceiveBytes`. -/
def ServiceNetworkReceiveBytes {C : Type} (w : World C) (p : Prometheus C) (params : List String) :
    Run Int :=
  let query : Option String :=
    if params.length > 1 then
      match params[0]?, params[1]? with
      | some p0, some p1 =>
        some ("sum(container_network_receive_bytes_total\x7bimage!=\"\", " ++
          "container_env_cdm_service_name=\"" ++ p0 ++
          "\", container_label_com_docker_swarm_node_id=\"" ++ p1 ++ "\"\x7d)")
      | _, _ => none
    else
      match params[0]? with
      | some p0 =>
        some ("sum(container_network_receive_bytes_total\x7bimage!=\"\", " ++
          "container_env_cdm_service_name=\"" ++ p0 ++ "\"\x7d)")
      | none => none
  match query with
  | none => ⟨.panicked, []⟩
  | some query =>
    let r := promAPIQuery w p query
    match r.err with
    | some err => ⟨.ret 0 (some err), r.issued⟩
    | none =>
      match r.result with
      | some (.Vector (v :: _)) => ⟨.ret (int64 w v.Value) none, r.issued⟩
      | _ => ⟨.panicked, r.issued⟩

/-- The method `ServiceNetworkTransmitBytes`. -/
def ServiceNetworkTransmitBytes {C : Type} (w : World C) (p : Prometheus C) (params : List String) :
    Run Int :=
  let query : Option String :=
    if params.length > 1 then
      match params[0]?, params[1]? with
      | some p0, some p1 =>
        some ("sum(container_network_transmit_bytes_total\x7bimage!=\"\", " ++
          "container_env_cdm_service_name=\"" ++ p0 ++
          "\", container_label_com_docker_swarm_node_id=\"" ++ p1 ++ "\"\x7d)")
      | _, _ => none
    else
      match params[0]? with
      | some p0 =>
        some ("sum(container_network_transmit_bytes_total\x7bimage!=\"\", " ++
          "container_env_cdm_service_name=\"" ++ p0 ++ "\"\x7d)")
      | none => none
  match query with
  | none => ⟨.panicked, []⟩
  | some query =>
    let r := promAPIQuery w p query
    match r.err with
    | some err => ⟨.ret 0 (some err), r.issued⟩
    | none =>
      match r.result with
      | some (.Vector (v :: _)) => ⟨.ret (int64 w v.Value) none, r.issued⟩
      | _ => ⟨.panicked, r.issued⟩

/-! ## Concrete worlds

Client handles are the endpoint strings they were created for. -/

/-- A world given by a registry, the set of endpoints accepting a client and the remote
engine's answers; out-of-range integer conversions give 0 and `float32` rounds nothing. -/
def mkWorld (lookup : String → List registry.Service × Option GoError)
    (accepts : String → Bool) (answer : String → QueryResponse) : World String :=
  ⟨lookup,
   fun cfg => if accepts cfg.Address then .ok cfg.Address else .error (GoError.other "refused"),
   fun _ query => answer query,
   fun _ => 0,
   fun _ => 0,
   fun v => v⟩

/-- The error of a query that ran into the deadline of 5 seconds. -/
def deadlineExceeded : GoError :=
  GoError.other "context deadline exceeded"

/-- An engine refusing every query with a timeout. -/
def timeoutAnswer (_ : String) : QueryResponse :=
  ⟨none, [], some deadlineExceeded⟩

/-- An engine answering every query with the given vector. -/
def vectorAnswer (samples : List model.Sample) (_ : String) : QueryResponse :=
  ⟨some (model.Value.Vector samples), [], none⟩

/-- A registry that knows no service. -/
def emptyRegistry (_ : String) : List registry.Service × Option GoError :=
  ([], some GoError.ErrNotFound)

/-- A registry whose lookup times out. -/
def brokenRegistry (_ : String) : List registry.Service × Option GoError :=
  ([], some (GoError.other "registry timeout"))

/-- A registry listing one instance of every service, at the given addresses. -/
def listingRegistry (addresses : List String) (name : String) :
    List registry.Service × Option GoError :=
  ([⟨name, addresses.map (fun a => ⟨"node-" ++ a, a⟩)⟩], none)

/-- The engine answers the vector `[sample]` to every query, `sample` being a `node_meta`
series whose swarm label is `n1` and whose `node_id` label is `n2`. -/
def strayNodeSample : model.Sample :=
  ⟨[("instance", "10.0.0.5:9100"), ("container_label_com_docker_swarm_node_id", "n1"),
    ("node_id", "n2"), ("node_name", "worker-1"), ("node_ip", "10.0.0.5")],
   GoFloat.finite 1 0⟩

/-- A world whose registry lists three addresses, in two instances, the first of which
refuses the connection. -/
def firstRefusesWorld : World String :=
  mkWorld
    (fun name => ([⟨name, [⟨"a", "10.0.0.4:9090"⟩]⟩,
      ⟨name, [⟨"b", "10.0.0.5:9090"⟩, ⟨"c", "10.0.0.6:9090"⟩]⟩], none))
    (fun a => a != "http://10.0.0.4:9090") timeoutAnswer

/-- A world whose engine refuses every query with a timeout. -/
def timeoutWorld : World String :=
  mkWorld emptyRegistry (fun _ => true) timeoutAnswer

/-- A world whose engine answers every query with two samples, of values 4 and 9. -/
def fourWorld : World String :=
  mkWorld emptyRegistry (fun _ => true)
    (vectorAnswer [⟨[("instance", "10.0.0.5:9100")], GoFloat.finite 4 0⟩,
      ⟨[("instance", "10.0.0.5:9100")], GoFloat.finite 9 0⟩])

/-- A world whose engine answers every query with `strayNodeSample`. -/
def strayWorld : World String :=
  mkWorld emptyRegistry (fun _ => true) (vectorAnswer [strayNodeSample])

/-- A world whose engine answers every query with one `node_meta` series of node `n1`. -/
def nodeWorld : World String :=
  mkWorld emptyRegistry (fun _ => true)
    (vectorAnswer [⟨[("instance", "10.0.0.5:9100"),
      ("container_label_com_docker_swarm_node_id", "n1"), ("node_id", "n1"),
      ("node_name", "worker-1"), ("node_ip", "10.0.0.5")], GoFloat.finite 1 0⟩])

/-- An adapter bound to one endpoint. -/
def boundAdapter : Prometheus String :=
  ⟨"http://10.0.0.5:9090"⟩

/-! ## Properties of a run -/

/-- The common tail of the eleven scalar accessors, from the call of `promAPIQuery` on;
lemmas about the tail are stated once, on this function. -/
def scalarRun {C α : Type} (w : World C) (p : Prometheus C) (query : String)
    (conv : GoFloat → α) (zero : α) : Run α :=
  let r := promAPIQuery w p query
  match r.err with
  | some err => ⟨.ret zero (some err), r.issued⟩
  | none =>
    match r.result with
    | some (.Vector (v :: _)) => ⟨.ret (conv v.Value) none, r.issued⟩
    | _ => ⟨.panicked, r.issued⟩

/-- The common tail of `NodeMeta` and `ServiceMeta`, from the call of `promAPIQuery` on,
`build` being the loop over the vector. -/
def vectorRun {C α : Type} (w : World C) (p : Prometheus C) (query : String)
    (build : List model.Sample → α) : Run (Option α) :=
  let r := promAPIQuery w p query
  match r.err with
  | some err => ⟨.ret none (some err), r.issued⟩
  | none =>
    match r.result with
    | some (.Vector vectors) => ⟨.ret (some (build vectors)) none, r.issued⟩
    | _ => ⟨.panicked, r.issued⟩

/-- The loop of `NodeMeta` over the vector. -/
def nodeMetaLoop (vectors : List model.Sample) : List (String × telemetry.NodeMeta) :=
  vectors.foldl
    (fun nodes v => mapSet nodes (label v.Metric "instance")
      ⟨label v.Metric "node_id", label v.Metric "node_name", label v.Metric "node_ip"⟩)
    []

/-- Error propagation of a run `r`: if the engine fails, with `e`, every query that `r`
sent, then `r` returned `zero` and exactly `e`, and sent exactly one query. -/
def PassesOn {C α : Type} (w : World C) (p : Prometheus C) (e : GoError) (zero : α)
    (r : Run α) : Prop :=
  (∀ q ∈ r.issued, (w.Query p.client q).err = some e) →
    r.outcome = .ret zero (some e) ∧ r.issued.length = 1

/-- First-sample extraction of a run `r`: if `r` sent a query that the engine answered,
without error, by the vector `s :: rest`, then `r` returned `conv s.Value` and a nil
error. -/
def ReturnsFirst {C α : Type} (w : World C) (p : Prometheus C) (s : model.Sample)
    (rest : List model.Sample) (conv : GoFloat → α) (r : Run α) : Prop :=
  (∃ q ∈ r.issued, (w.Query p.client q).err = none ∧
      (w.Query p.client q).result = some (model.Value.Vector (s :: rest))) →
    r.outcome = .ret (conv s.Value) none

end prometheus

namespace prometheus

/-! ## The loops of `New` -/

theorem connectNodes_append {C : Type} (w : World C) (xs ys : List registry.Node) :
    connectNodes w (xs ++ ys) =
      match connectNodes w xs with
      | (some client, dialed) => (some client, dialed)
      | (none, dialed) => ((connectNodes w ys).1, dialed ++ (connectNodes w ys).2) := by
  induction xs with
  | nil => simp [connectNodes]
  | cons x xs ih =>
    simp only [List.cons_append, connectNodes]
    cases hx : w.NewClient ⟨address x.Address⟩ with
    | ok client => simp
    | error e =>
      cases hxs : connectNodes w xs with
      | mk found dialed =>
        rw [hxs] at ih
        cases found <;> simp [ih]

theorem connectServices_eq_connectNodes {C : Type} (w : World C)
    (services : List registry.Service) :
    connectServices w services = connectNodes w (services.flatMap (fun svc => svc.Nodes)) := by
  induction services with
  | nil => simp [connectServices, connectNodes]
  | cons svc rest ih =>
    simp only [connectServices, List.flatMap_cons, connectNodes_append, ih]

theorem connectNodes_all_fail {C : Type} (w : World C) (nodes : List registry.Node)
    (hfail : ∀ n ∈ nodes, ∃ e, w.NewClient ⟨address n.Address⟩ = .error e) :
    connectNodes w nodes = (none, nodes.map (fun n => ⟨address n.Address⟩)) := by
  induction nodes with
  | nil => simp [connectNodes]
  | cons x xs ih =>
    obtain ⟨e, he⟩ := hfail x (List.mem_cons_self x xs)
    have ih2 := ih (fun n hn => hfail n (List.mem_cons_of_mem x hn))
    simp [connectNodes, he, ih2]

theorem connectNodes_first_ok {C : Type} (w : World C) (nodes : List registry.Node)
    (hreach : ∃ n ∈ nodes, ∃ c, w.NewClient ⟨address n.Address⟩ = .ok c) :
    ∃ pre n post c,
      nodes = pre ++ n :: post ∧
      (∀ m ∈ pre, ∃ e, w.NewClient ⟨address m.Address⟩ = .error e) ∧
      w.NewClient ⟨address n.Address⟩ = .ok c ∧
      connectNodes w nodes =
        (some c, (pre ++ [n]).map (fun m => ⟨address m.Address⟩)) := by
  induction nodes with
  | nil => obtain ⟨n, hn, _⟩ := hreach; simp at hn
  | cons x xs ih =>
    cases hx : w.NewClient ⟨address x.Address⟩ with
    | ok client =>
      exact ⟨[], x, xs, client, by simp, by simp, hx, by simp [connectNodes, hx]⟩
    | error e =>
      have hrest : ∃ n ∈ xs, ∃ c, w.NewClient ⟨address n.Address⟩ = .ok c := by
        obtain ⟨n, hn, c, hc⟩ := hreach
        rcases List.mem_cons.mp hn with rfl | hmem
        · rw [hx] at hc; cases hc
        · exact ⟨n, hmem, c, hc⟩
      obtain ⟨pre, n, post, c, hsplit, hpre, hn, hrun⟩ := ih hrest
      refine ⟨x :: pre, n, post, c, by simp [hsplit], ?_, hn, by simp [connectNodes, hx, hrun]⟩
      intro m hm
      rcases List.mem_cons.mp hm with rfl | hmem
      · exact ⟨e, hx⟩
      · exact hpre m hmem

/-! ## The query primitive and the shape of the accessors -/

theorem promAPIQuery_issued {C : Type} (w : World C) (p : Prometheus C) (query : String) :
    (promAPIQuery w p query).issued = [query] := by
  simp only [promAPIQuery]
  split <;> rfl

theorem promAPIQuery_of_err {C : Type} (w : World C) (p : Prometheus C) (query : String)
    (e : GoError) (h : (w.Query p.client query).err = some e) :
    promAPIQuery w p query = ⟨none, some e, [query]⟩ := by
  simp [promAPIQuery, h]

theorem promAPIQuery_of_ok {C : Type} (w : World C) (p : Prometheus C) (query : String)
    (h : (w.Query p.client query).err = none) :
    promAPIQuery w p query = ⟨(w.Query p.client query).result, none, [query]⟩ := by
  simp [promAPIQuery, h]

theorem scalarRun_issued {C α : Type} (w : World C) (p : Prometheus C) (query : String)
    (conv : GoFloat → α) (zero : α) :
    (scalarRun w p query conv zero).issued = [query] := by
  unfold scalarRun
  simp only [promAPIQuery_issued]
  split
  · rfl
  · split <;> rfl

theorem scalarRun_passesOn {C α : Type} (w : World C) (p : Prometheus C) (query : String)
    (conv : GoFloat → α) (zero : α) (e : GoError) :
    PassesOn w p e zero (scalarRun w p query conv zero) := by
  intro h
  have he := h query (by simp [scalarRun_issued])
  refine ⟨?_, by simp [scalarRun_issued]⟩
  simp [scalarRun, promAPIQuery_of_err w p query e he]

theorem scalarRun_returnsFirst {C α : Type} (w : World C) (p : Prometheus C) (query : String)
    (conv : GoFloat → α) (zero : α) (s : model.Sample) (rest : List model.Sample) :
    ReturnsFirst w p s rest conv (scalarRun w p query conv zero) := by
  rintro ⟨q, hq, herr, hres⟩
  rw [scalarRun_issued, List.mem_singleton] at hq
  subst hq
  simp [scalarRun, promAPIQuery_of_ok w p q herr, hres]

theorem ServiceMemUsedBytes_shape {C : Type} (w : World C) (p : Prometheus C) (a : String)
    (rest : List String) :
    ∃ q, ServiceMemUsedBytes w p (a :: rest) = scalarRun w p q (int64 w) 0 := by
  cases rest with
  | nil => exact ⟨_, rfl⟩
  | cons b rest =>
    have hlen : (a :: b :: rest).length > 1 := by simp
    unfold ServiceMemUsedBytes
    simp only [hlen, if_true, List.getElem?_cons_zero, List.getElem?_cons_succ]
    exact ⟨_, rfl⟩

theorem ServiceNetworkReceiveBytes_shape {C : Type} (w : World C) (p : Prometheus C) (a : String)
    (rest : List String) :
    ∃ q, ServiceNetworkReceiveBytes w p (a :: rest) = scalarRun w p q (int64 w) 0 := by
  cases rest with
  | nil => exact ⟨_, rfl⟩
  | cons b rest =>
    have hlen : (a :: b :: rest).length > 1 := by simp
    unfold ServiceNetworkReceiveBytes
    simp only [hlen, if_true, List.getElem?_cons_zero, List.getElem?_cons_succ]
    exact ⟨_, rfl⟩

theorem ServiceNetworkTransmitBytes_shape {C : Type} (w : World C) (p : Prometheus C) (a : String)
    (rest : List String) :
    ∃ q, ServiceNetworkTransmitBytes w p (a :: rest) = scalarRun w p q (int64 w) 0 := by
  cases rest with
  | nil => exact ⟨_, rfl⟩
  | cons b rest =>
    have hlen : (a :: b :: rest).length > 1 := by simp
    unfold ServiceNetworkTransmitBytes
    simp only [hlen, if_true, List.getElem?_cons_zero, List.getElem?_cons_succ]
    exact ⟨_, rfl⟩

theorem vectorRun_issued {C α : Type} (w : World C) (p : Prometheus C) (query : String)
    (build : List model.Sample → α) :
    (vectorRun w p query build).issued = [query] := by
  unfold vectorRun
  simp only [promAPIQuery_issued]
  split
  · rfl
  · split <;> rfl

theorem vectorRun_passesOn {C α : Type} (w : World C) (p : Prometheus C) (query : String)
    (build : List model.Sample → α) (e : GoError) :
    PassesOn w p e none (vectorRun w p query build) := by
  intro h
  have he := h query (by simp [vectorRun_issued])
  refine ⟨?_, by simp [vectorRun_issued]⟩
  simp [vectorRun, promAPIQuery_of_err w p query e he]

theorem vectorRun_of_vector {C α : Type} (w : World C) (p : Prometheus C) (query : String)
    (build : List model.Sample → α) (samples : List model.Sample)
    (h : ∃ q ∈ (vectorRun w p query build).issued, (w.Query p.client q).err = none ∧
      (w.Query p.client q).result = some (model.Value.Vector samples)) :
    (vectorRun w p query build).outcome = .ret (some (build samples)) none := by
  obtain ⟨q, hq, herr, hres⟩ := h
  rw [vectorRun_issued, List.mem_singleton] at hq
  subst hq
  simp [vectorRun, promAPIQuery_of_ok w p q herr, hres]

theorem NodeMeta_shape {C : Type} (w : World C) (p : Prometheus C) (idList : List String) :
    ∃ q, NodeMeta w p idList = vectorRun w p q nodeMetaLoop :=
  ⟨_, rfl⟩

theorem ServiceMeta_shape {C : Type} (w : World C) (p : Prometheus C) (name : String) :
    ∃ q build, ServiceMeta w p name = vectorRun w p q build :=
  ⟨_, _, rfl⟩

theorem NodeCPUCoreCnt_shape {C : Type} (w : World C) (p : Prometheus C) (key : String) :
    ∃ q, NodeCPUCoreCnt w p key = scalarRun w p q (int32 w) 0 :=
  ⟨_, rfl⟩

theorem NodeCPUUsedRate_shape {C : Type} (w : World C) (p : Prometheus C) (key : String) :
    ∃ q, NodeCPUUsedRate w p key = scalarRun w p q (w.float32) (GoFloat.finite 0 0) :=
  ⟨_, rfl⟩

theorem NodeMemTotalBytes_shape {C : Type} (w : World C) (p : Prometheus C) (key : String) :
    ∃ q, NodeMemTotalBytes w p key = scalarRun w p q (int64 w) 0 :=
  ⟨_, rfl⟩

theorem NodeMemUsedBytes_shape {C : Type} (w : World C) (p : Prometheus C) (key : String) :
    ∃ q, NodeMemUsedBytes w p key = scalarRun w p q (int64 w) 0 :=
  ⟨_, rfl⟩

theorem NodeNetworkReceiveBytes_shape {C : Type} (w : World C) (p : Prometheus C) (key : String) :
    ∃ q, NodeNetworkReceiveBytes w p key = scalarRun w p q (int64 w) 0 :=
  ⟨_, rfl⟩

theorem NodeNetworkTransmitBytes_shape {C : Type} (w : World C) (p : Prometheus C) (key : String) :
    ∃ q, NodeNetworkTransmitBytes w p key = scalarRun w p q (int64 w) 0 :=
  ⟨_, rfl⟩

theorem NodeFilesystemSizeBytes_shape {C : Type} (w : World C) (p : Prometheus C) (key : String) :
    ∃ q, NodeFilesystemSizeBytes w p key = scalarRun w p q (int64 w) 0 :=
  ⟨_, rfl⟩

theorem NodeFilesystemUsedBytes_shape {C : Type} (w : World C) (p : Prometheus C) (key : String) :
    ∃ q, NodeFilesystemUsedBytes w p key = scalarRun w p q (int64 w) 0 :=
  ⟨_, rfl⟩

/-! ## The map built by `NodeMeta` -/

theorem mapSet_forall {β : Type} (P : β → Prop) (nodes : List (String × β)) (key : String)
    (value : β) (hnodes : ∀ entry ∈ nodes, P entry.2) (hvalue : P value) :
    ∀ entry ∈ mapSet nodes key value, P entry.2 := by
  induction nodes with
  | nil =>
    intro entry hentry
    simp only [mapSet, List.mem_singleton] at hentry
    subst hentry
    exact hvalue
  | cons head rest ih =>
    obtain ⟨k, b⟩ := head
    intro entry hentry
    simp only [mapSet] at hentry
    split at hentry
    · rcases List.mem_cons.mp hentry with rfl | hmem
      · exact hvalue
      · exact hnodes entry (List.mem_cons_of_mem _ hmem)
    · rcases List.mem_cons.mp hentry with rfl | hmem
      · exact hnodes _ (List.mem_cons_self _ _)
      · exact ih (fun x hx => hnodes x (List.mem_cons_of_mem _ hx)) entry hmem

theorem foldl_mapSet_forall {β : Type} (P : β → Prop) (key : model.Sample → String)
    (value : model.Sample → β) (vectors : List model.Sample)
    (hvalue : ∀ v ∈ vectors, P (value v)) (nodes : List (String × β))
    (hnodes : ∀ entry ∈ nodes, P entry.2) :
    ∀ entry ∈ vectors.foldl (fun nodes v => mapSet nodes (key v) (value v)) nodes,
      P entry.2 := by
  induction vectors generalizing nodes with
  | nil => simpa using hnodes
  | cons v rest ih =>
    simp only [List.foldl_cons]
    apply ih (fun x hx => hvalue x (List.mem_cons_of_mem _ hx))
    exact mapSet_forall P nodes (key v) (value v) hnodes (hvalue v (List.mem_cons_self _ _))

theorem nodeMetaLoop_ID (vectors : List model.Sample) (id : String)
    (hid : ∀ v ∈ vectors, label v.Metric "node_id" = id) :
    ∀ entry ∈ nodeMetaLoop vectors, entry.2.ID = id :=
  foldl_mapSet_forall (fun (m : telemetry.NodeMeta) => m.ID = id)
    (fun v => label v.Metric "instance")
    (fun v => ⟨label v.Metric "node_id", label v.Metric "node_name", label v.Metric "node_ip"⟩)
    vectors hid [] (by simp)

/-! ## Joining strings -/

theorem intercalate_go_eq (sep acc a : String) (rest : List String) :
    String.intercalate.go acc sep (a :: rest) = acc ++ sep ++ Join (a :: rest) sep := by
  induction rest generalizing acc a with
  | nil => simp [String.intercalate.go, Join]
  | cons b rest ih =>
    rw [String.intercalate.go, ih]
    simp [Join, String.append_assoc]

theorem Join_eq_intercalate (elems : List String) (sep : String) :
    Join elems sep = sep.intercalate elems := by
  match elems with
  | [] => rfl
  | [a] => rfl
  | a :: b :: rest =>
    rw [String.intercalate, intercalate_go_eq]
    simp [Join]

/-! ## Construction: `New` -/

/-- C1: when the registry lookup reports not-found, or returns an empty instance list
(and no error), `New` returns `ErrNotFoundService` with a nil adapter and attempts no
connection. -/
theorem New_not_found {C : Type} (w : World C) (name : String)
    (h : (w.GetService name).2 = some GoError.ErrNotFound ∨
      ((w.GetService name).2 = none ∧ (w.GetService name).1 = [])) :
    New w name = ⟨none, some GoError.ErrNotFoundService, []⟩ := by
  rcases h with h | ⟨h, hs⟩
  · simp [New, h]
  · simp [New, h, hs]

theorem New_not_found_witness :
    (emptyRegistry "unknown service").2 = some GoError.ErrNotFound ∧
      New (mkWorld emptyRegistry (fun _ => true) timeoutAnswer) "unknown service" =
        ⟨none, some GoError.ErrNotFoundService, []⟩ :=
  ⟨rfl, New_not_found (mkWorld emptyRegistry (fun _ => true) timeoutAnswer) "unknown service"
    (Or.inl rfl)⟩

/-- C2: when the lookup succeeds and some listed address accepts a connection, `New`
returns a nil error and an adapter holding the client of the first successful attempt in
listing order (instances in order, each instance's addresses in order): the listing
splits as `pre ++ n :: post` where every attempt for `pre` fails, the attempt for `n`
yields the client `c` of the adapter, and the attempts made are exactly those for
`pre ++ [n]`, none for `post`. -/
theorem New_first_reachable {C : Type} (w : World C) (name : String)
    (hok : (w.GetService name).2 = none)
    (hreach : ∃ n ∈ (w.GetService name).1.flatMap (fun svc => svc.Nodes),
      ∃ c, w.NewClient ⟨address n.Address⟩ = .ok c) :
    ∃ pre n post c,
      (w.GetService name).1.flatMap (fun svc => svc.Nodes) = pre ++ n :: post ∧
      (∀ m ∈ pre, ∃ e, w.NewClient ⟨address m.Address⟩ = .error e) ∧
      w.NewClient ⟨address n.Address⟩ = .ok c ∧
      New w name = ⟨some ⟨c⟩, none, (pre ++ [n]).map (fun m => ⟨address m.Address⟩)⟩ := by
  have hne : (w.GetService name).1 ≠ [] := by
    intro hnil
    obtain ⟨n, hn, _⟩ := hreach
    simp [hnil] at hn
  obtain ⟨pre, n, post, c, hsplit, hpre, hn, hrun⟩ := connectNodes_first_ok w _ hreach
  refine ⟨pre, n, post, c, hsplit, hpre, hn, ?_⟩
  simp [New, hok, hne, connectServices_eq_connectNodes, hrun]

theorem New_first_reachable_witness :
    (∃ pre n post c,
      (firstRefusesWorld.GetService "metrics-svc").1.flatMap (fun svc => svc.Nodes) =
        pre ++ n :: post ∧
      (∀ m ∈ pre, ∃ e, firstRefusesWorld.NewClient ⟨address m.Address⟩ = .error e) ∧
      firstRefusesWorld.NewClient ⟨address n.Address⟩ = .ok c ∧
      New firstRefusesWorld "metrics-svc" =
        ⟨some ⟨c⟩, none, (pre ++ [n]).map (fun m => ⟨address m.Address⟩)⟩) ∧
    New firstRefusesWorld "metrics-svc" =
      ⟨some ⟨"http://10.0.0.5:9090"⟩, none,
        [⟨"http://10.0.0.4:9090"⟩, ⟨"http://10.0.0.5:9090"⟩]⟩ :=
  ⟨New_first_reachable firstRefusesWorld "metrics-svc" rfl
    ⟨⟨"c", "10.0.0.6:9090"⟩, by decide, "http://10.0.0.6:9090", rfl⟩,
   by decide⟩

/-- C3 (the code at the failing input): for a registered address that already begins with
the scheme, the endpoint handed to `api.NewClient` is the empty string, not the address;
an address without the scheme gets the scheme in front. -/
theorem New_scheme_present_dials_empty :
    address "http://10.0.0.5:9090" = "" ∧
      address "10.0.0.5:9090" = "http://10.0.0.5:9090" ∧
      (New (mkWorld (listingRegistry ["http://10.0.0.5:9090"]) (fun _ => true) timeoutAnswer)
        "metrics-svc").dialed = [⟨""⟩] ∧
      (New (mkWorld (listingRegistry ["http://10.0.0.5:9090"]) (fun _ => true) timeoutAnswer)
        "metrics-svc").adapter = some ⟨""⟩ := by
  decide

/-- C4: when the lookup succeeds with a non-empty listing and every connection attempt
fails (also when no instance carries an address), `New` returns `ErrConnectionFailed` with
a nil adapter, having tried every listed address in order. -/
theorem New_connection_failed {C : Type} (w : World C) (name : String)
    (hok : (w.GetService name).2 = none)
    (hne : (w.GetService name).1 ≠ [])
    (hfail : ∀ svc ∈ (w.GetService name).1, ∀ n ∈ svc.Nodes,
      ∃ e, w.NewClient ⟨address n.Address⟩ = .error e) :
    New w name = ⟨none, some GoError.ErrConnectionFailed,
      ((w.GetService name).1.flatMap (fun svc => svc.Nodes)).map
        (fun n => ⟨address n.Address⟩)⟩ := by
  have hall : ∀ n ∈ (w.GetService name).1.flatMap (fun svc => svc.Nodes),
      ∃ e, w.NewClient ⟨address n.Address⟩ = .error e := by
    intro n hn
    obtain ⟨svc, hsvc, hmem⟩ := List.mem_flatMap.mp hn
    exact hfail svc hsvc n hmem
  simp [New, hok, hne, connectServices_eq_connectNodes, connectNodes_all_fail w _ hall]

theorem New_connection_failed_witness :
    New (mkWorld (listingRegistry ["10.0.0.4:9090", "10.0.0.5:9090"]) (fun _ => false)
        timeoutAnswer) "metrics-svc" =
      ⟨none, some GoError.ErrConnectionFailed,
        [⟨"http://10.0.0.4:9090"⟩, ⟨"http://10.0.0.5:9090"⟩]⟩ ∧
    New (mkWorld (listingRegistry []) (fun _ => true) timeoutAnswer) "metrics-svc" =
      ⟨none, some GoError.ErrConnectionFailed, []⟩ :=
  ⟨New_connection_failed
      (mkWorld (listingRegistry ["10.0.0.4:9090", "10.0.0.5:9090"]) (fun _ => false)
        timeoutAnswer) "metrics-svc" rfl (by decide)
      (fun _ _ _ _ => ⟨GoError.other "refused", rfl⟩),
   New_connection_failed
      (mkWorld (listingRegistry []) (fun _ => true) timeoutAnswer) "metrics-svc" rfl
      (by decide)
      (by
        intro svc hsvc n hn
        simp only [mkWorld, listingRegistry, List.map_nil, List.mem_singleton] at hsvc
        subst hsvc
        simp at hn)⟩

/-- C5: when the registry lookup fails with an error `e` other than not-found, `New`
returns exactly `e` with a nil adapter, whatever listing came with the error, and attempts
no connection. -/
theorem New_propagates_registry_error {C : Type} (w : World C) (name : String) (e : GoError)
    (herr : (w.GetService name).2 = some e) (hne : e ≠ GoError.ErrNotFound) :
    New w name = ⟨none, some e, []⟩ := by
  simp [New, herr, hne]

theorem New_propagates_registry_error_witness :
    New (mkWorld brokenRegistry (fun _ => true) timeoutAnswer) "metrics-svc" =
      ⟨none, some (GoError.other "registry timeout"), []⟩ :=
  New_propagates_registry_error (mkWorld brokenRegistry (fun _ => true) timeoutAnswer)
    "metrics-svc" (GoError.other "registry timeout") rfl (by decide)

/-! ## The accessors -/

/-- C6: for each of the 13 accessors and every argument list for which the query
expression is built (the variadic service accessors need a first argument), if the remote
query fails with `e` the accessor returns exactly `e` with the zero value of its result
type (0, a nil map, a nil slice), having sent exactly one query. -/
theorem accessors_propagate_query_error {C : Type} (w : World C) (p : Prometheus C)
    (e : GoError) (idList : List String) (key name : String) (params : List String)
    (hparams : params ≠ []) :
    PassesOn w p e none (NodeMeta w p idList) ∧
    PassesOn w p e 0 (NodeCPUCoreCnt w p key) ∧
    PassesOn w p e (GoFloat.finite 0 0) (NodeCPUUsedRate w p key) ∧
    PassesOn w p e 0 (NodeMemTotalBytes w p key) ∧
    PassesOn w p e 0 (NodeMemUsedBytes w p key) ∧
    PassesOn w p e 0 (NodeNetworkReceiveBytes w p key) ∧
    PassesOn w p e 0 (NodeNetworkTransmitBytes w p key) ∧
    PassesOn w p e 0 (NodeFilesystemSizeBytes w p key) ∧
    PassesOn w p e 0 (NodeFilesystemUsedBytes w p key) ∧
    PassesOn w p e none (ServiceMeta w p name) ∧
    PassesOn w p e 0 (ServiceMemUsedBytes w p params) ∧
    PassesOn w p e 0 (ServiceNetworkReceiveBytes w p params) ∧
    PassesOn w p e 0 (ServiceNetworkTransmitBytes w p params) := by
  obtain ⟨a, rest, rfl⟩ := List.exists_cons_of_ne_nil hparams
  refine ⟨?_, ?_, ?_, ?_, ?_, ?_, ?_, ?_, ?_, ?_, ?_, ?_, ?_⟩
  · obtain ⟨q, hq⟩ := NodeMeta_shape w p idList
    rw [hq]; exact vectorRun_passesOn w p q _ e
  · obtain ⟨q, hq⟩ := NodeCPUCoreCnt_shape w p key
    rw [hq]; exact scalarRun_passesOn w p q _ _ e
  · obtain ⟨q, hq⟩ := NodeCPUUsedRate_shape w p key
    rw [hq]; exact scalarRun_passesOn w p q _ _ e
  · obtain ⟨q, hq⟩ := NodeMemTotalBytes_shape w p key
    rw [hq]; exact scalarRun_passesOn w p q _ _ e
  · obtain ⟨q, hq⟩ := NodeMemUsedBytes_shape w p key
    rw [hq]; exact scalarRun_passesOn w p q _ _ e
  · obtain ⟨q, hq⟩ := NodeNetworkReceiveBytes_shape w p key
    rw [hq]; exact scalarRun_passesOn w p q _ _ e
  · obtain ⟨q, hq⟩ := NodeNetworkTransmitBytes_shape w p key
    rw [hq]; exact scalarRun_passesOn w p q _ _ e
  · obtain ⟨q, hq⟩ := NodeFilesystemSizeBytes_shape w p key
    rw [hq]; exact scalarRun_passesOn w p q _ _ e
  · obtain ⟨q, hq⟩ := NodeFilesystemUsedBytes_shape w p key
    rw [hq]; exact scalarRun_passesOn w p q _ _ e
  · obtain ⟨q, build, hq⟩ := ServiceMeta_shape w p name
    rw [hq]; exact vectorRun_passesOn w p q build e
  · obtain ⟨q, hq⟩ := ServiceMemUsedBytes_shape w p a rest
    rw [hq]; exact scalarRun_passesOn w p q _ _ e
  · obtain ⟨q, hq⟩ := ServiceNetworkReceiveBytes_shape w p a rest
    rw [hq]; exact scalarRun_passesOn w p q _ _ e
  · obtain ⟨q, hq⟩ := ServiceNetworkTransmitBytes_shape w p a rest
    rw [hq]; exact scalarRun_passesOn w p q _ _ e

theorem accessors_propagate_query_error_witness :
    ((NodeMeta timeoutWorld boundAdapter ["n1", "n2"]).outcome =
        .ret none (some deadlineExceeded) ∧
      (NodeMeta timeoutWorld boundAdapter ["n1", "n2"]).issued.length = 1) ∧
    ((NodeCPUCoreCnt timeoutWorld boundAdapter "10.0.0.5:9100").outcome =
        .ret 0 (some deadlineExceeded) ∧
      (NodeCPUCoreCnt timeoutWorld boundAdapter "10.0.0.5:9100").issued.length = 1) ∧
    ((NodeCPUUsedRate timeoutWorld boundAdapter "10.0.0.5:9100").outcome =
        .ret (GoFloat.finite 0 0) (some deadlineExceeded) ∧
      (NodeCPUUsedRate timeoutWorld boundAdapter "10.0.0.5:9100").issued.length = 1) ∧
    ((NodeMemTotalBytes timeoutWorld boundAdapter "10.0.0.5:9100").outcome =
        .ret 0 (some deadlineExceeded) ∧
      (NodeMemTotalBytes timeoutWorld boundAdapter "10.0.0.5:9100").issued.length = 1) ∧
    ((NodeMemUsedBytes timeoutWorld boundAdapter "10.0.0.5:9100").outcome =
        .ret 0 (some deadlineExceeded) ∧
      (NodeMemUsedBytes timeoutWorld boundAdapter "10.0.0.5:9100").issued.length = 1) ∧
    ((NodeNetworkReceiveBytes timeoutWorld boundAdapter "10.0.0.5:9100").outcome =
        .ret 0 (some deadlineExceeded) ∧
      (NodeNetworkReceiveBytes timeoutWorld boundAdapter "10.0.0.5:9100").issued.length = 1) ∧
    ((NodeNetworkTransmitBytes timeoutWorld boundAdapter "10.0.0.5:9100").outcome =
        .ret 0 (some deadlineExceeded) ∧
      (NodeNetworkTransmitBytes timeoutWorld boundAdapter "10.0.0.5:9100").issued.length = 1) ∧
    ((NodeFilesystemSizeBytes timeoutWorld boundAdapter "10.0.0.5:9100").outcome =
        .ret 0 (some deadlineExceeded) ∧
      (NodeFilesystemSizeBytes timeoutWorld boundAdapter "10.0.0.5:9100").issued.length = 1) ∧
    ((NodeFilesystemUsedBytes timeoutWorld boundAdapter "10.0.0.5:9100").outcome =
        .ret 0 (some deadlineExceeded) ∧
      (NodeFilesystemUsedBytes timeoutWorld boundAdapter "10.0.0.5:9100").issued.length = 1) ∧
    ((ServiceMeta timeoutWorld boundAdapter "metrics-svc").outcome =
        .ret none (some deadlineExceeded) ∧
      (ServiceMeta timeoutWorld boundAdapter "metrics-svc").issued.length = 1) ∧
    ((ServiceMemUsedBytes timeoutWorld boundAdapter ["metrics-svc", "n1"]).outcome =
        .ret 0 (some deadlineExceeded) ∧
      (ServiceMemUsedBytes timeoutWorld boundAdapter ["metrics-svc", "n1"]).issued.length = 1) ∧
    ((ServiceNetworkReceiveBytes timeoutWorld boundAdapter ["metrics-svc", "n1"]).outcome =
        .ret 0 (some deadlineExceeded) ∧
      (ServiceNetworkReceiveBytes timeoutWorld boundAdapter ["metrics-svc", "n1"]).issued.length = 1) ∧
    ((ServiceNetworkTransmitBytes timeoutWorld boundAdapter ["metrics-svc", "n1"]).outcome =
        .ret 0 (some deadlineExceeded) ∧
      (ServiceNetworkTransmitBytes timeoutWorld boundAdapter ["metrics-svc", "n1"]).issued.length = 1) := by
  obtain ⟨h1, h2, h3, h4, h5, h6, h7, h8, h9, h10, h11, h12, h13⟩ :=
    accessors_propagate_query_error timeoutWorld boundAdapter
      deadlineExceeded ["n1", "n2"] "10.0.0.5:9100" "metrics-svc"
      ["metrics-svc", "n1"] (by decide)
  exact ⟨h1 (fun _ _ => rfl), h2 (fun _ _ => rfl), h3 (fun _ _ => rfl), h4 (fun _ _ => rfl),
    h5 (fun _ _ => rfl), h6 (fun _ _ => rfl), h7 (fun _ _ => rfl), h8 (fun _ _ => rfl),
    h9 (fun _ _ => rfl), h10 (fun _ _ => rfl), h11 (fun _ _ => rfl), h12 (fun _ _ => rfl),
    h13 (fun _ _ => rfl)⟩

/-- C7: for each of the 11 scalar accessors, whenever its query succeeds with a vector
`s :: rest`, reading element zero is in bounds: the accessor does not panic and returns a
nil error and the value of `s` converted to its output type (`int32`, `float32` or
`int64`), whatever `rest` is; a single sample of value 4 makes `NodeCPUCoreCnt` return
4. -/
theorem scalar_accessors_return_first_sample {C : Type} (w : World C) (p : Prometheus C)
    (key : String) (params : List String) (s : model.Sample) (rest : List model.Sample) :
    ReturnsFirst w p s rest (int32 w) (NodeCPUCoreCnt w p key) ∧
    ReturnsFirst w p s rest (w.float32) (NodeCPUUsedRate w p key) ∧
    ReturnsFirst w p s rest (int64 w) (NodeMemTotalBytes w p key) ∧
    ReturnsFirst w p s rest (int64 w) (NodeMemUsedBytes w p key) ∧
    ReturnsFirst w p s rest (int64 w) (NodeNetworkReceiveBytes w p key) ∧
    ReturnsFirst w p s rest (int64 w) (NodeNetworkTransmitBytes w p key) ∧
    ReturnsFirst w p s rest (int64 w) (NodeFilesystemSizeBytes w p key) ∧
    ReturnsFirst w p s rest (int64 w) (NodeFilesystemUsedBytes w p key) ∧
    ReturnsFirst w p s rest (int64 w) (ServiceMemUsedBytes w p params) ∧
    ReturnsFirst w p s rest (int64 w) (ServiceNetworkReceiveBytes w p params) ∧
    ReturnsFirst w p s rest (int64 w) (ServiceNetworkTransmitBytes w p params) ∧
    (∀ labels, ReturnsFirst w p ⟨labels, GoFloat.finite 4 0⟩ [] (fun _ => (4 : Int))
      (NodeCPUCoreCnt w p key)) := by
  refine ⟨?_, ?_, ?_, ?_, ?_, ?_, ?_, ?_, ?_, ?_, ?_, ?_⟩
  · obtain ⟨q, hq⟩ := NodeCPUCoreCnt_shape w p key
    rw [hq]; exact scalarRun_returnsFirst w p q _ _ s rest
  · obtain ⟨q, hq⟩ := NodeCPUUsedRate_shape w p key
    rw [hq]; exact scalarRun_returnsFirst w p q _ _ s rest
  · obtain ⟨q, hq⟩ := NodeMemTotalBytes_shape w p key
    rw [hq]; exact scalarRun_returnsFirst w p q _ _ s rest
  · obtain ⟨q, hq⟩ := NodeMemUsedBytes_shape w p key
    rw [hq]; exact scalarRun_returnsFirst w p q _ _ s rest
  · obtain ⟨q, hq⟩ := NodeNetworkReceiveBytes_shape w p key
    rw [hq]; exact scalarRun_returnsFirst w p q _ _ s rest
  · obtain ⟨q, hq⟩ := NodeNetworkTransmitBytes_shape w p key
    rw [hq]; exact scalarRun_returnsFirst w p q _ _ s rest
  · obtain ⟨q, hq⟩ := NodeFilesystemSizeBytes_shape w p key
    rw [hq]; exact scalarRun_returnsFirst w p q _ _ s rest
  · obtain ⟨q, hq⟩ := NodeFilesystemUsedBytes_shape w p key
    rw [hq]; exact scalarRun_returnsFirst w p q _ _ s rest
  · match params with
    | [] => rintro ⟨q, hq, _⟩; simp [ServiceMemUsedBytes] at hq
    | a :: more =>
      obtain ⟨q, hq⟩ := ServiceMemUsedBytes_shape w p a more
      rw [hq]; exact scalarRun_returnsFirst w p q _ _ s rest
  · match params with
    | [] => rintro ⟨q, hq, _⟩; simp [ServiceNetworkReceiveBytes] at hq
    | a :: more =>
      obtain ⟨q, hq⟩ := ServiceNetworkReceiveBytes_shape w p a more
      rw [hq]; exact scalarRun_returnsFirst w p q _ _ s rest
  · match params with
    | [] => rintro ⟨q, hq, _⟩; simp [ServiceNetworkTransmitBytes] at hq
    | a :: more =>
      obtain ⟨q, hq⟩ := ServiceNetworkTransmitBytes_shape w p a more
      rw [hq]; exact scalarRun_returnsFirst w p q _ _ s rest
  · intro labels h
    obtain ⟨q, hq⟩ := NodeCPUCoreCnt_shape w p key
    rw [hq] at h ⊢
    rw [scalarRun_returnsFirst w p q (int32 w) 0 _ _ h]
    rfl

theorem scalar_accessors_return_first_sample_witness :
    (NodeCPUCoreCnt fourWorld boundAdapter "10.0.0.5:9100").outcome = .ret 4 none ∧
    (NodeCPUUsedRate fourWorld boundAdapter "10.0.0.5:9100").outcome = .ret (GoFloat.finite 4 0) none ∧
    (NodeMemTotalBytes fourWorld boundAdapter "10.0.0.5:9100").outcome = .ret 4 none ∧
    (NodeMemUsedBytes fourWorld boundAdapter "10.0.0.5:9100").outcome = .ret 4 none ∧
    (NodeNetworkReceiveBytes fourWorld boundAdapter "10.0.0.5:9100").outcome = .ret 4 none ∧
    (NodeNetworkTransmitBytes fourWorld boundAdapter "10.0.0.5:9100").outcome = .ret 4 none ∧
    (NodeFilesystemSizeBytes fourWorld boundAdapter "10.0.0.5:9100").outcome = .ret 4 none ∧
    (NodeFilesystemUsedBytes fourWorld boundAdapter "10.0.0.5:9100").outcome = .ret 4 none ∧
    (ServiceMemUsedBytes fourWorld boundAdapter ["metrics-svc", "n1"]).outcome = .ret 4 none ∧
    (ServiceNetworkReceiveBytes fourWorld boundAdapter ["metrics-svc", "n1"]).outcome = .ret 4 none ∧
    (ServiceNetworkTransmitBytes fourWorld boundAdapter ["metrics-svc", "n1"]).outcome = .ret 4 none := by
  obtain ⟨h1, h2, h3, h4, h5, h6, h7, h8, h9, h10, h11, _⟩ :=
    scalar_accessors_return_first_sample fourWorld boundAdapter "10.0.0.5:9100"
      ["metrics-svc", "n1"] ⟨[("instance", "10.0.0.5:9100")], GoFloat.finite 4 0⟩
      [⟨[("instance", "10.0.0.5:9100")], GoFloat.finite 9 0⟩]
  exact ⟨h1 ⟨_, List.mem_singleton_self _, rfl, rfl⟩,
    h2 ⟨_, List.mem_singleton_self _, rfl, rfl⟩,
    h3 ⟨_, List.mem_singleton_self _, rfl, rfl⟩,
    h4 ⟨_, List.mem_singleton_self _, rfl, rfl⟩,
    h5 ⟨_, List.mem_singleton_self _, rfl, rfl⟩,
    h6 ⟨_, List.mem_singleton_self _, rfl, rfl⟩,
    h7 ⟨_, List.mem_singleton_self _, rfl, rfl⟩,
    h8 ⟨_, List.mem_singleton_self _, rfl, rfl⟩,
    h9 ⟨_, List.mem_singleton_self _, rfl, rfl⟩,
    h10 ⟨_, List.mem_singleton_self _, rfl, rfl⟩,
    h11 ⟨_, List.mem_singleton_self _, rfl, rfl⟩⟩

/-- C8 (as the code has it): for every id and every successful query result in which
every sample's `node_id` label equals `id`, `NodeMeta(id)` returns a map and a nil error,
and every entry of the map has its `ID` field equal to `id`. -/
theorem NodeMeta_ID_of_node_id_label {C : Type} (w : World C) (p : Prometheus C)
    (id : String) (samples : List model.Sample)
    (hquery : ∃ q ∈ (NodeMeta w p [id]).issued, (w.Query p.client q).err = none ∧
      (w.Query p.client q).result = some (model.Value.Vector samples))
    (hlabel : ∀ v ∈ samples, label v.Metric "node_id" = id) :
    ∃ nodes, (NodeMeta w p [id]).outcome = .ret (some nodes) none ∧
      ∀ entry ∈ nodes, entry.2.ID = id := by
  obtain ⟨q, hq⟩ := NodeMeta_shape w p [id]
  rw [hq] at hquery ⊢
  exact ⟨nodeMetaLoop samples, vectorRun_of_vector w p q nodeMetaLoop samples hquery,
    nodeMetaLoop_ID samples id hlabel⟩

theorem NodeMeta_ID_of_node_id_label_witness :
    ∃ nodes, (NodeMeta nodeWorld boundAdapter ["n1"]).outcome = .ret (some nodes) none ∧
      ∀ entry ∈ nodes, entry.2.ID = "n1" :=
  NodeMeta_ID_of_node_id_label nodeWorld boundAdapter "n1" _
    ⟨_, List.mem_singleton_self _, rfl, rfl⟩ (by decide)

/-- C8 (the claim fails): the engine answers `NodeMeta("n1")` with one sample whose
label `container_label_com_docker_swarm_node_id`, the one the query filters on, is `n1`
and whose `node_id` label is `n2`; the returned map has the entry with `ID` equal to `n2`,
so not every entry has `ID` equal to `n1`. -/
theorem NodeMeta_ID_not_filter_label :
    (∀ v ∈ [strayNodeSample], label v.Metric "container_label_com_docker_swarm_node_id" = "n1") ∧
      (NodeMeta strayWorld boundAdapter ["n1"]).issued =
        ["node_meta\x7bcontainer_label_com_docker_swarm_node_id=~\"n1\"\x7d"] ∧
      (strayWorld.Query boundAdapter.client
        "node_meta\x7bcontainer_label_com_docker_swarm_node_id=~\"n1\"\x7d") =
        ⟨some (model.Value.Vector [strayNodeSample]), [], none⟩ ∧
      (NodeMeta strayWorld boundAdapter ["n1"]).outcome =
        .ret (some [("10.0.0.5:9100", ⟨"n2", "worker-1", "10.0.0.5"⟩)]) none ∧
      ¬ (∀ entry ∈ [("10.0.0.5:9100", (⟨"n2", "worker-1", "10.0.0.5"⟩ : telemetry.NodeMeta))],
        entry.2.ID = "n1") := by
  decide

/-- C9: `NodeMeta` with an empty id list sends exactly the unfiltered query
`node_meta{}`; with a non-empty id list it sends exactly
`node_meta{container_label_com_docker_swarm_node_id=~"R"}` where `R` is the ids joined
by `|` in the order given and embedded verbatim; a single id gives `R` equal to that id. -/
theorem NodeMeta_query {C : Type} (w : World C) (p : Prometheus C) (id : String)
    (ids : List String) :
    (NodeMeta w p []).issued = ["node_meta\x7b\x7d"] ∧
      (NodeMeta w p (id :: ids)).issued =
        ["node_meta\x7bcontainer_label_com_docker_swarm_node_id=~\"" ++
          "|".intercalate (id :: ids) ++ "\"\x7d"] ∧
      (NodeMeta w p [id]).issued =
        ["node_meta\x7bcontainer_label_com_docker_swarm_node_id=~\"" ++ id ++ "\"\x7d"] ∧
      (∀ next more, "|".intercalate (id :: next :: more) =
        id ++ "|" ++ "|".intercalate (next :: more)) := by
  have hshape : ∀ idList : List String, NodeMeta w p idList =
      vectorRun w p
        (if idList.length > 0 then
          "node_meta\x7bcontainer_label_com_docker_swarm_node_id=~\"" ++ Join idList "|" ++ "\"\x7d"
        else "node_meta\x7b\x7d") nodeMetaLoop := fun _ => rfl
  refine ⟨?_, ?_, ?_, ?_⟩
  · rw [hshape, vectorRun_issued]; rfl
  · rw [hshape, vectorRun_issued, Join_eq_intercalate]; simp
  · rw [hshape, vectorRun_issued]; rfl
  · intro next more
    rw [← Join_eq_intercalate, ← Join_eq_intercalate]
    rfl

/-- C10: for each of `ServiceMemUsedBytes`, `ServiceNetworkReceiveBytes` and
`ServiceNetworkTransmitBytes`: with exactly one argument the query sent is the sum over
the containers whose service-name label equals that argument, with no node-id filter; with
two or more arguments the query also requires the node-id label to equal the second
argument, and the arguments after the second do not change it. -/
theorem service_queries {C : Type} (w : World C) (p : Prometheus C) (name node : String)
    (extra : List String) :
    (ServiceMemUsedBytes w p [name]).issued =
        ["sum(container_memory_usage_bytes\x7bimage!=\"\", container_env_cdm_service_name=\"" ++ name ++ "\"\x7d)"] ∧
      (ServiceMemUsedBytes w p (name :: node :: extra)).issued =
        ["sum(container_memory_usage_bytes\x7bimage!=\"\", container_env_cdm_service_name=\"" ++ name ++
          "\", container_label_com_docker_swarm_node_id=\"" ++ node ++ "\"\x7d)"] ∧
      (ServiceNetworkReceiveBytes w p [name]).issued =
        ["sum(container_network_receive_bytes_total\x7bimage!=\"\", container_env_cdm_service_name=\"" ++ name ++ "\"\x7d)"] ∧
      (ServiceNetworkReceiveBytes w p (name :: node :: extra)).issued =
        ["sum(container_network_receive_bytes_total\x7bimage!=\"\", container_env_cdm_service_name=\"" ++ name ++
          "\", container_label_com_docker_swarm_node_id=\"" ++ node ++ "\"\x7d)"] ∧
      (ServiceNetworkTransmitBytes w p [name]).issued =
        ["sum(container_network_transmit_bytes_total\x7bimage!=\"\", container_env_cdm_service_name=\"" ++ name ++ "\"\x7d)"] ∧
      (ServiceNetworkTransmitBytes w p (name :: node :: extra)).issued =
        ["sum(container_network_transmit_bytes_total\x7bimage!=\"\", container_env_cdm_service_name=\"" ++ name ++
          "\", container_label_com_docker_swarm_node_id=\"" ++ node ++ "\"\x7d)"] := by
  have hlen : (name :: node :: extra).length > 1 := by simp
  refine ⟨?_, ?_, ?_, ?_, ?_, ?_⟩
  · exact scalarRun_issued w p _ (int64 w) 0
  · unfold ServiceMemUsedBytes
    simp only [hlen, if_true, List.getElem?_cons_zero, List.getElem?_cons_succ]
    exact scalarRun_issued w p _ (int64 w) 0
  · exact scalarRun_issued w p _ (int64 w) 0
  · unfold ServiceNetworkReceiveBytes
    simp only [hlen, if_true, List.getElem?_cons_zero, List.getElem?_cons_succ]
    exact scalarRun_issued w p _ (int64 w) 0
  · exact scalarRun_issued w p _ (int64 w) 0
  · unfold ServiceNetworkTransmitBytes
    simp only [hlen, if_true, List.getElem?_cons_zero, List.getElem?_cons_succ]
    exact scalarRun_issued w p _ (int64 w) 0

end prometheus
